import Mathlib

/-!
Verification of the natural-language specification of the jupyter-lite
example repository against its sources.

The repository ships three documents inside `src/examples/pyolite`:
a "virtual drive" notebook (nbformat 4 JSON), a "PIL demo" notebook
(nbformat 4 JSON), and a YAML workspace descriptor for a cloud
development platform.  This file gives a shallow embedding of those
documents: the JSON / YAML values become Lean structures, and the
Python code held in the notebook cells is embedded as explicit lists of
abstract calls, which a small interpreter over a model filesystem can
run.  All definitions are executable and all concrete facts are settled
by kernel evaluation.
-/

set_option maxRecDepth 100000

namespace JupyterLite

/-! ## Notebook data model (nbformat 4) -/

/-- A single output attached to a code cell, as stored in the notebook
JSON: its `output_type`, its mime-bundle `data` (mime type paired with
payload), and the `execution_count` recorded on the output. -/
structure Output where
  output_type : String
  data : List (String × String)
  execution_count : Option Nat
  deriving DecidableEq, Repr

/-- The cell-level metadata keys that occur in the sources: an optional
`trusted` flag and an optional `tags` list.  Cells whose metadata object
is `{}` have both fields absent. -/
structure CellMeta where
  trusted : Option Bool := none
  tags : Option (List String) := none
  deriving DecidableEq, Repr

/-- A notebook cell: either a markdown cell or a code cell.  A code cell
carries its `source`, metadata, `execution_count` (`none` embeds JSON
`null`) and `outputs` list. -/
inductive Cell where
  | markdown (source : String) (meta : CellMeta)
  | code (source : String) (meta : CellMeta)
      (execution_count : Option Nat) (outputs : List Output)
  deriving DecidableEq, Repr

/-- A notebook document: format version fields and the cell list. -/
structure Notebook where
  nbformat : Nat
  nbformat_minor : Nat
  cells : List Cell
  deriving DecidableEq, Repr

/-- The source text of a cell. -/
def Cell.src : Cell → String
  | .markdown s _ => s
  | .code s _ _ _ => s

/-- The metadata of a cell. -/
def Cell.metaOf : Cell → CellMeta
  | .markdown _ m => m
  | .code _ m _ _ => m

/-- Whether a cell is a code cell. -/
def Cell.isCode : Cell → Bool
  | .markdown _ _ => false
  | .code _ _ _ _ => true

/-- The code cells of a notebook, in order. -/
def Notebook.codeCells (nb : Notebook) : List Cell :=
  nb.cells.filter Cell.isCode

/-! ## The virtual drive notebook (`examples/pyolite/virtual_drive.ipynb`)

Transcribed field by field from the notebook JSON: every code cell has
`"metadata": {"trusted": true}`, `"execution_count": null` and
`"outputs": []`. -/

/-- Metadata `{"trusted": true}` shared by all virtual-drive code cells. -/
def trustedMeta : CellMeta := { trusted := some true }

/-- The virtual-drive notebook, cell by cell. -/
def virtualDrive : Notebook :=
  { nbformat := 4
    nbformat_minor := 4
    cells :=
      [ .markdown "## Virtual file system support\n\nPyolite mounts a virtual `/drive` directory which allows access to files that are provided by JupyterLab.\n\n**NOTE:** The virtual file system **does not work when in private mode under Firefox** and you\x27ll get permission errors. It will also fail to work if you **hard refresh** the page." {}
      , .code "import os" trustedMeta none []
      , .code "os.getcwd()" trustedMeta none []
      , .markdown "### Make directory" {}
      , .code "os.path.isdir(\"dir\")" trustedMeta none []
      , .code "os.mkdir(\"dir\")" trustedMeta none []
      , .markdown "### List directory content" {}
      , .code "os.listdir(os.getcwd())" trustedMeta none []
      , .markdown "### Remove" {}
      , .code "os.rmdir(\x27dir\x27)" trustedMeta none []
      , .code "os.listdir(os.getcwd())" trustedMeta none []
      , .markdown "### Reading/writing file" { tags := some [] }
      , .code "with open(\x27test.txt\x27, \x27w\x27) as fobj:\n    fobj.write(\x27Hello! I write this from the kernel worker\x27)" trustedMeta none []
      , .code "with open(\x27test.txt\x27, \x27r\x27) as fobj:\n    print(fobj.read())" trustedMeta none []
      , .code "from PIL import Image\n\nimg = Image.new(\x27RGB\x27, (60, 30), color=(73, 109, 137))\nimg.save(\x27pil_color.png\x27)" trustedMeta none []
      , .code "from IPython.display import Image\n\nwith open(\x27pil_color.png\x27, \x27rb\x27) as fobj:\n    data = fobj.read()\n\nprint(data[:20])\nImage(data=data, format=\x27png\x27)" trustedMeta none []
      , .markdown "### Replace" {}
      , .code "os.path.exists(\x27test.txt\x27)" trustedMeta none []
      , .code "os.rename(\"test.txt\", \"test_rename.txt\")" trustedMeta none []
      , .code "os.path.exists(\x27test.txt\x27)" trustedMeta none []
      , .code "os.listdir(os.getcwd())" trustedMeta none []
      ] }

/-! ## The PIL demo notebook

Transcribed from the second notebook JSON.  Its code cells carry
integer execution counts 1 to 4, empty `{}` metadata, and two of them
store an `execute_result` output with an `image/png` and a `text/plain`
representation. -/

/-- The base64 png payload stored twice in the PIL demo outputs. -/
def pilPng : String := "iVBORw0KGgoAAAANSUhEUgAAAGQAAABkCAIAAAD/gAIDAAAANElEQVR4nO3BAQ0AAADCoPdPbQ43oAAAAAAAAAAAAAAAAAAAAAAAAAAAAAAAAAAAAAAAfgx1lAABqFDyOQAAAABJRU5ErkJggg==\n"

/-- The PIL demo notebook, cell by cell. -/
def pilDemo : Notebook :=
  { nbformat := 4
    nbformat_minor := 4
    cells :=
      [ .markdown "# `PIL.Image` Demo\n\nPIL is the **Python Image Library**, and has excellent [documentation](https://pillow.readthedocs.io/en/latest/index.html).\n\nThis is a simple demonstration of rendering PIL images in a `jupyterlite` notebook. Most of PIL should work as designed." {}
      , .markdown "## Import the Library\n\n`jupyterlite` comes with PIL, so you only need import what you need from it." {}
      , .code "from PIL import Image" {} (some 1) []
      , .markdown "## Create a new Image" {}
      , .code "image = Image.new(\"RGB\", (100, 100))\nimage" {} (some 2)
          [ { output_type := "execute_result"
              data := [("image/png", pilPng), ("text/plain", "<PIL.Image.Image image mode=RGB size=100x100 at 0x7F2A940AAD90>")]
              execution_count := some 2 } ]
      , .markdown "## Saving an Image" {}
      , .code "image.save(\"box.png\")" {} (some 3) []
      , .markdown "## Open an existing Image\n\nCurrently only works with images written by `jupyterlite`." {}
      , .code "box_image = Image.open(\"box.png\")\nbox_image" {} (some 4)
          [ { output_type := "execute_result"
              data := [("image/png", pilPng), ("text/plain", "<PIL.PngImagePlugin.PngImageFile image mode=RGB size=100x100 at 0x7F2A943FF610>")]
              execution_count := some 4 } ]
      ] }

/-! ## The workspace descriptor (YAML)

Transcribed from the YAML document: a `github.prebuilds` mapping of
boolean flags, a `tasks` list (each task has a `name`, an optional
`init` script and an optional `command` script), and a `ports` list. -/

/-- A named task of the workspace descriptor.  `init` and `command` are
optional YAML keys holding shell scripts; `none` embeds an absent key. -/
structure Task where
  name : String
  init : Option String := none
  command : Option String := none
  deriving DecidableEq, Repr

/-- A declared network port. -/
structure PortDecl where
  port : Nat
  deriving DecidableEq, Repr

/-- The workspace descriptor document: the `github.prebuilds` keys with
their boolean values, the task list, and the port list. -/
structure Workspace where
  prebuilds : List (String × Bool)
  tasks : List Task
  ports : List PortDecl
  deriving DecidableEq, Repr

/-- The `init` script of the `setup` task. -/
def setupInit : String := "pushd /workspace\nwget -qO- https://micro.mamba.pm/api/micromamba/linux-64/latest | tar -xvj bin/micromamba\npopd\n# bootstrap activation commands for other tasks to reuse\ncat <<EOT > /workspace/bin/activate-env.sh\nexport MAMBA_ROOT_PREFIX=/workspace/.micromamba\nexport MAMBA_EXE=/workspace/bin/micromamba\n$(/workspace/bin/micromamba shell hook \x2d-shell=bash)\nmicromamba activate\nEOT\nsource /workspace/bin/activate-env.sh\nmicromamba install -n base -y -f .binder/environment.yml\ndoit build\n"

/-- The `command` script of the `setup` task. -/
def setupCommand : String := "gp sync-done setup\nsource /workspace/bin/activate-env.sh\ndoit watch\n"

/-- The `command` script of the `watch` task. -/
def watchCommand : String := "gp sync-await setup\nsource /workspace/bin/activate-env.sh\ndoit serve\n"

/-- The `command` script of the `docs` task. -/
def docsCommand : String := "gp sync-await setup\nsource /workspace/bin/activate-env.sh\ndoit watch:docs\n"

/-- The workspace descriptor. -/
def workspace : Workspace :=
  { prebuilds :=
      [ ("master", true), ("pullRequests", true), ("pullRequestsFromForks", true)
      , ("addCheck", false), ("addComment", false), ("addBadge", false), ("addLabel", false) ]
    tasks :=
      [ { name := "setup", init := some setupInit, command := some setupCommand }
      , { name := "watch", command := some watchCommand }
      , { name := "docs", command := some docsCommand } ]
    ports := [ { port := 5000 }, { port := 8000 }, { port := 8888 } ] }

/-! ## Shallow embedding of the Python held in the code cells

Each code cell's Python source is embedded as a list of abstract calls,
in the order the interpreter would issue them.  Import statements bind
names and issue no call.  The `with open(...) as fobj:` blocks are
embedded as an `openFile` call followed by the `fobj.write` / `fobj.read`
calls made inside the block. -/

/-- A call into the POSIX-like file API used by the cells. -/
inductive FileOp where
  | getcwd
  | isdir (p : String)
  | mkdir (p : String)
  | listdir
  | rmdir (p : String)
  | openFile (p : String) (mode : String)
  | fileWrite (s : String)
  | fileRead
  | pathExists (p : String)
  | rename (src dst : String)
  deriving DecidableEq, Repr

/-- A call made by a code cell: a file-API call, an image-library (PIL)
call, a `print`, or the `IPython.display.Image` constructor. -/
inductive Call where
  | fileOp (op : FileOp)
  | pilNew (mode : String)
  | pilSave (path : String)
  | pilOpen (path : String)
  | printCall
  | ipyImage
  deriving DecidableEq, Repr

/-- The calls issued by each code cell of the virtual-drive notebook, in
cell order, read off the Python sources of `virtualDrive.codeCells`:
`import os`; `os.getcwd()`; `os.path.isdir("dir")`; `os.mkdir("dir")`;
`os.listdir(os.getcwd())`; `os.rmdir` of `dir`; `os.listdir(os.getcwd())`;
the `open`/`write` block on `test.txt`; the `open`/`read`/`print` block on
`test.txt`; the PIL `Image.new`/`img.save` cell; the binary
`open`/`read`/`print`/`IPython.display.Image` cell; `os.path.exists`;
`os.rename`; `os.path.exists`; `os.listdir(os.getcwd())`. -/
def vdCellCalls : List (List Call) :=
  [ []
  , [.fileOp .getcwd]
  , [.fileOp (.isdir "dir")]
  , [.fileOp (.mkdir "dir")]
  , [.fileOp .getcwd, .fileOp .listdir]
  , [.fileOp (.rmdir "dir")]
  , [.fileOp .getcwd, .fileOp .listdir]
  , [.fileOp (.openFile "test.txt" "w"), .fileOp (.fileWrite "Hello! I write this from the kernel worker")]
  , [.fileOp (.openFile "test.txt" "r"), .fileOp .fileRead, .printCall]
  , [.pilNew "RGB", .pilSave "pil_color.png"]
  , [.fileOp (.openFile "pil_color.png" "rb"), .fileOp .fileRead, .printCall, .ipyImage]
  , [.fileOp (.pathExists "test.txt")]
  , [.fileOp (.rename "test.txt" "test_rename.txt")]
  , [.fileOp (.pathExists "test.txt")]
  , [.fileOp .getcwd, .fileOp .listdir]
  ]

/-- The calls issued by each code cell of the PIL demo notebook, in cell
order, read off the Python sources of `pilDemo.codeCells`:
`from PIL import Image`; `Image.new("RGB", (100, 100))`;
`image.save("box.png")`; `Image.open("box.png")`. -/
def pilCellCalls : List (List Call) :=
  [ []
  , [.pilNew "RGB"]
  , [.pilSave "box.png"]
  , [.pilOpen "box.png"]
  ]

/-- All calls of the virtual-drive notebook, flattened in order. -/
def vdCalls : List Call := vdCellCalls.flatten

/-- All calls of the PIL demo notebook, flattened in order. -/
def pilCalls : List Call := pilCellCalls.flatten

/-- The file-API call carried by a `Call`, if any. -/
def Call.fileOpOf : Call → Option FileOp
  | .fileOp op => some op
  | _ => none

/-- The file-API calls of the virtual-drive notebook, in order. -/
def vdFileOps : List FileOp := vdCalls.filterMap Call.fileOpOf

/-! ## A model filesystem for interpreting the virtual-drive cells

The state is an association list of entry names and kinds.  Queries
leave the state unchanged; `mkdir` adds a directory; `rmdir` removes the
named entry; opening a file for writing creates it if absent; `rename`
renames every entry carrying the old name. -/

/-- The kind of filesystem entry: plain file or directory. -/
inductive Entry where
  | file
  | dir
  deriving DecidableEq, Repr

/-- The model filesystem: entries in creation order. -/
abbrev Fs := List (String × Entry)

/-- Whether an entry named `p` is present. -/
def fsMember (fs : Fs) (p : String) : Bool := fs.any (fun e => e.1 == p)

/-- The directory listing: the entry names in order. -/
def listingOf (fs : Fs) : List String := fs.map (fun e => e.1)

/-- One step of the model filesystem. -/
def applyOp (fs : Fs) : FileOp → Fs
  | .mkdir p => fs ++ [(p, .dir)]
  | .rmdir p => fs.filter (fun e => !(e.1 == p))
  | .openFile p m =>
      if m == "w" then (if fsMember fs p then fs else fs ++ [(p, .file)]) else fs
  | .rename a b => fs.map (fun e => if e.1 == a then (b, e.2) else e)
  | _ => fs

/-- Run a sequence of file operations from a starting state. -/
def runOps (fs : Fs) (ops : List FileOp) : Fs := ops.foldl applyOp fs

/-! ## String utilities used to state textual claims -/

/-- Whether the character list `p` occurs contiguously inside `l`. -/
def listContainsSeg (l p : List Char) : Bool :=
  (List.range (l.length + 1)).any (fun i => p.isPrefixOf (l.drop i))

/-- Whether `pat` occurs as a substring of `s`. -/
def strContains (s pat : String) : Bool := listContainsSeg s.data pat.data

/-- Characters that belong to a word: alphanumerics and underscore. -/
def isWordChar (c : Char) : Bool := c.isAlphanum || c == '_'

/-- Split a character list into maximal runs of word characters. -/
def splitWords : List Char → List Char → List (List Char)
  | [], acc => if acc.isEmpty then [] else [acc.reverse]
  | c :: cs, acc =>
      if isWordChar c then splitWords cs (c :: acc)
      else if acc.isEmpty then splitWords cs []
      else acc.reverse :: splitWords cs []

/-- The word tokens of a string: maximal alphanumeric-or-underscore runs. -/
def wordTokens (s : String) : List String :=
  (splitWords s.data []).map (fun l => String.mk l)

/-! ## Predicates used by the claims -/

/-- The execution count of a cell (`none` for markdown cells). -/
def Cell.execCount : Cell → Option Nat
  | .code _ _ ec _ => ec
  | .markdown _ _ => none

/-- The outputs of a cell (`[]` for markdown cells). -/
def Cell.outputsOf : Cell → List Output
  | .code _ _ _ outs => outs
  | .markdown _ _ => []

/-- A cell is a pre-execution placeholder: empty outputs and null
execution count.  Markdown cells satisfy this vacuously. -/
def cellPre (c : Cell) : Bool := c.execCount.isNone && c.outputsOf.isEmpty

/-- The cross-task coordination primitives of the workspace platform
that occur in the sources. -/
def syncPrims : List String := ["gp sync-done", "gp sync-await"]

/-- A string mentions no synchronization / coordination primitive. -/
def noSyncRef (s : String) : Bool := syncPrims.all fun p => !(strContains s p)

/-- The init and command scripts of the workspace tasks, in task order. -/
def taskScripts : List String :=
  workspace.tasks.flatMap fun t => t.init.toList ++ t.command.toList

/-- The sources of all cells of both notebooks. -/
def notebookSources : List String :=
  (virtualDrive.cells ++ pilDemo.cells).map Cell.src

/-- The kinds of file operation named by the specification, plus the
working-directory query that the spec's list leaves out. -/
inductive OpKind where
  | dirCreate
  | dirList
  | dirRemove
  | fileRW
  | existCheck
  | renameOp
  | cwdQuery
  deriving DecidableEq, BEq, Repr

/-- The kind of a file operation. -/
def FileOp.kind : FileOp → OpKind
  | .mkdir _ => .dirCreate
  | .listdir => .dirList
  | .rmdir _ => .dirRemove
  | .openFile _ _ => .fileRW
  | .fileWrite _ => .fileRW
  | .fileRead => .fileRW
  | .isdir _ => .existCheck
  | .pathExists _ => .existCheck
  | .rename _ _ => .renameOp
  | .getcwd => .cwdQuery

/-- A file operation is of one of the kinds the claim lists: directory
creation, listing, removal, open with mode exactly `r` or `w` (and the
reads/writes inside such a block), existence check, or rename. -/
def listedFileOp : FileOp → Bool
  | .getcwd => false
  | .openFile _ m => m == "r" || m == "w"
  | _ => true

/-- The amended predicate: additionally admits the working-directory
query and the binary-read open mode `rb`. -/
def listedFileOpAmended : FileOp → Bool
  | .openFile _ m => m == "r" || m == "w" || m == "rb"
  | _ => true

/-- The three image-library usage kinds the specification names. -/
inductive PilKind where
  | construct
  | save
  | openImg
  deriving DecidableEq, BEq, Repr

/-- The image-library usage kind of a call, if it is a PIL call. -/
def Call.pilKind : Call → Option PilKind
  | .pilNew _ => some .construct
  | .pilSave _ => some .save
  | .pilOpen _ => some .openImg
  | _ => none

/-- The PIL call carried by a call, if any. -/
def Call.pilPart : Call → Option Call
  | .pilNew m => some (.pilNew m)
  | .pilSave p => some (.pilSave p)
  | .pilOpen p => some (.pilOpen p)
  | _ => none

/-- A document of the sources: a notebook or the workspace descriptor. -/
inductive Document where
  | notebook (nb : Notebook)
  | descriptor (w : Workspace)
  deriving DecidableEq, Repr

/-- Every document of the sources, paired with the shallow embedding of
the Python calls its code cells make (the descriptor holds no Python). -/
def sourceDocs : List (Document × List Call) :=
  [ (.notebook virtualDrive, vdCalls)
  , (.notebook pilDemo, pilCalls)
  , (.descriptor workspace, []) ]

/-- A call is a standard filesystem operation or an image-library call. -/
def fsOrImageCall : Call → Bool
  | .fileOp _ => true
  | .pilNew _ => true
  | .pilSave _ => true
  | .pilOpen _ => true
  | .printCall => false
  | .ipyImage => false

/-- The descriptor's init/command scripts invoke the environment manager
(micromamba) and the build tool (doit). -/
def descriptorOk (w : Workspace) : Bool :=
  let scripts := w.tasks.flatMap fun t => t.init.toList ++ t.command.toList
  (scripts.any fun s => strContains s "micromamba") &&
    (scripts.any fun s => strContains s "doit")

/-- The claim's document classification, as stated: an nbformat-4
notebook whose code cells call only filesystem operations and the image
library, or a YAML task descriptor invoking micromamba and doit. -/
def docStatedOk : Document × List Call → Bool
  | (.notebook nb, calls) => nb.nbformat == 4 && calls.all fsOrImageCall
  | (.descriptor w, _) => descriptorOk w

/-- The amended classification: notebook code cells may additionally
call Python print and the IPython display Image helper. -/
def docAmendedOk : Document × List Call → Bool
  | (.notebook nb, calls) =>
      nb.nbformat == 4 &&
        calls.all fun c => fsOrImageCall c || c == .printCall || c == .ipyImage
  | (.descriptor w, _) => descriptorOk w

/-- The directory name passed to `os.mkdir`, for extraction. -/
def FileOp.mkdirArg : FileOp → Option String
  | .mkdir p => some p
  | _ => none

/-- The directory name passed to `os.rmdir`, for extraction. -/
def FileOp.rmdirArg : FileOp → Option String
  | .rmdir p => some p
  | _ => none

/-! ## Helper lemmas about the model filesystem -/

/-- Filtering out an absent name leaves the filesystem unchanged. -/
theorem filter_absent : ∀ (fs : Fs) (p : String), fsMember fs p = false →
    fs.filter (fun e => !(e.1 == p)) = fs
  | [], _, _ => rfl
  | x :: xs, p, h => by
      have h' : (x.1 == p) = false ∧ fsMember xs p = false := by
        simpa [fsMember, Bool.or_eq_false_iff] using h
      simp [List.filter_cons, h'.1, filter_absent xs p h'.2]

/-- Renaming an absent name leaves the filesystem unchanged. -/
theorem rename_absent : ∀ (fs : Fs) (a b : String), fsMember fs a = false →
    fs.map (fun e => if e.1 == a then (b, e.2) else e) = fs
  | [], _, _, _ => rfl
  | x :: xs, a, b, h => by
      have h' : (x.1 == a) = false ∧ fsMember xs a = false := by
        simpa [fsMember, Bool.or_eq_false_iff] using h
      have ih := rename_absent xs a b h'.2
      simp only [List.map_cons, ih]
      rw [show (if x.1 == a then (b, x.2) else x) = x from by rw [h'.1]; rfl]

/-! ## Claim theorems -/

/-- C1 counterexample: the PIL demo notebook's `Image.new` cell (index 4
of its cell list) is a code cell that is not a pre-execution placeholder:
its execution count is 2 and it stores an output. -/
theorem C1_counterexample :
    (pilDemo.cells.getD 4 (Cell.markdown "" {})).isCode = true ∧
    cellPre (pilDemo.cells.getD 4 (Cell.markdown "" {})) = false := by decide

/-- C1 amended: every cell of the virtual-drive notebook is a
pre-execution placeholder (code cells have empty outputs and null
execution count), while every code cell of the PIL demo notebook has a
non-null execution count and two of them store outputs. -/
theorem C1_virtual_drive_cells_pre_execution :
    virtualDrive.cells.all cellPre = true ∧
    pilDemo.codeCells.all (fun c => c.execCount.isSome) = true ∧
    (pilDemo.codeCells.filter fun c => !(c.outputsOf.isEmpty)).length = 2 := by decide

/-- C2 counterexample: the `watch` task is in the descriptor's task list
and has no `init` field. -/
theorem C2_counterexample :
    Task.mk "watch" none (some watchCommand) ∈ workspace.tasks ∧
    (Task.mk "watch" none (some watchCommand)).init = none := by decide

/-- C2 amended: every named task of the workspace descriptor has a
`command` field, but only the `setup` task also has an `init` field. -/
theorem C2_task_fields :
    workspace.tasks.all (fun t => t.command.isSome) = true ∧
    (workspace.tasks.filter fun t => t.init.isSome).map Task.name = ["setup"] := by decide

/-- C3 counterexample: the `setup` task is in the descriptor's task
list, and its command script contains the cross-task coordination
primitive `gp sync-done`. -/
theorem C3_counterexample :
    Task.mk "setup" (some setupInit) (some setupCommand) ∈ workspace.tasks ∧
    strContains setupCommand "gp sync-done" = true ∧
    noSyncRef setupCommand = false := by decide

/-- C3 amended: no notebook cell source contains a synchronization or
cross-task coordination primitive, but the workspace task scripts do
coordinate across tasks: `setup` signals completion with `gp sync-done`
and `watch` and `docs` wait on it with `gp sync-await`. -/
theorem C3_sync_primitives :
    notebookSources.all noSyncRef = true ∧
    strContains setupCommand "gp sync-done" = true ∧
    strContains watchCommand "gp sync-await" = true ∧
    strContains docsCommand "gp sync-await" = true := by decide

/-- C4 counterexample: the virtual-drive cells issue `os.getcwd()` calls
and an `open(..., \x27rb\x27)` call, both file operations outside the kinds the
claim lists. -/
theorem C4_counterexample :
    FileOp.openFile "pil_color.png" "rb" ∈ vdFileOps ∧
    listedFileOp (FileOp.openFile "pil_color.png" "rb") = false ∧
    FileOp.getcwd ∈ vdFileOps ∧
    listedFileOp FileOp.getcwd = false := by decide

/-- C4 amended: the virtual-drive notebook's code cells invoke each of
the listed operation kinds (directory creation, listing, removal,
file open/read/write, existence check, rename), and every file operation
they make is of a listed kind, a working-directory query (`os.getcwd`),
or a binary-mode open (mode `rb`). -/
theorem C4_file_api_kinds :
    vdFileOps.all listedFileOpAmended = true ∧
    ([OpKind.dirCreate, .dirList, .dirRemove, .fileRW, .existCheck, .renameOp].all
      fun k => (vdFileOps.map FileOp.kind).contains k) = true := by decide

/-- C5: the image-library usage of the two notebooks is exactly
construction (`Image.new`), save (`image.save`/`img.save`) and open
(`Image.open`): the extracted PIL call lists are as below, and the set
of usage kinds across both notebooks is construct, save, open. -/
theorem C5_pil_usage :
    vdCalls.filterMap Call.pilPart = [.pilNew "RGB", .pilSave "pil_color.png"] ∧
    pilCalls.filterMap Call.pilPart = [.pilNew "RGB", .pilSave "box.png", .pilOpen "box.png"] ∧
    ((vdCalls ++ pilCalls).filterMap Call.pilKind).dedup
      = [.construct, .save, .openImg] := by decide

/-- C6: the workspace descriptor declares prebuild triggers for the
`master` branch and for pull requests (including ones from forks), and
declares the network ports 5000, 8000 and 8888. -/
theorem C6_prebuilds_and_ports :
    ("master", true) ∈ workspace.prebuilds ∧
    ("pullRequests", true) ∈ workspace.prebuilds ∧
    ("pullRequestsFromForks", true) ∈ workspace.prebuilds ∧
    workspace.ports = [PortDecl.mk 5000, PortDecl.mk 8000, PortDecl.mk 8888] := by decide

/-- C7: independence of the two artifact families: no word token of any
notebook cell source equals a workspace task name (or the platform name
`gitpod`), and no word token of any task script names a notebook file
(`ipynb` extension or the `virtual_drive` stem). -/
theorem C7_independence :
    (notebookSources.all fun s =>
      ((workspace.tasks.map Task.name) ++ ["gitpod"]).all
        fun t => !((wordTokens s).contains t)) = true ∧
    (taskScripts.all fun s =>
      (["ipynb", "virtual_drive"]).all fun t => !((wordTokens s).contains t)) = true := by
  decide

/-- C8 counterexample: the virtual-drive notebook is among the source
documents, yet its cells call the IPython display Image helper, which is
neither a filesystem operation nor an image-library call, so the stated
two-kind classification rejects it. -/
theorem C8_counterexample :
    (Document.notebook virtualDrive, vdCalls) ∈ sourceDocs ∧
    Call.ipyImage ∈ vdCalls ∧
    fsOrImageCall Call.ipyImage = false ∧
    docStatedOk (Document.notebook virtualDrive, vdCalls) = false := by decide

/-- C8 amended: every one of the three source documents is either an
nbformat-4 notebook whose code cells call only filesystem operations,
the image library, Python `print` and the IPython display Image helper,
or the YAML task descriptor whose init/command scripts invoke micromamba
and doit. -/
theorem C8_document_kinds :
    sourceDocs.all docAmendedOk = true ∧ sourceDocs.length = 3 := by decide

/-- Running operations over a concatenation runs the two parts in turn. -/
theorem runOps_append (fs : Fs) (l₁ l₂ : List FileOp) :
    runOps fs (l₁ ++ l₂) = runOps (runOps fs l₁) l₂ := by
  simp [runOps, List.foldl_append]

/-- C9: interpreting the virtual-drive cell sequence over the model
filesystem from any state not already containing `dir` or `test.txt`:
the name passed to rmdir equals the name passed earlier to mkdir, the
mkdir/rmdir pair restores the directory listing, and after the rename
`test.txt` no longer exists while `test_rename.txt` is in the listing. -/
theorem C9_mkdir_rmdir_rename (fs₀ : Fs)
    (h₁ : fsMember fs₀ "dir" = false)
    (h₂ : fsMember fs₀ "test.txt" = false) :
    vdFileOps.filterMap FileOp.mkdirArg = ["dir"] ∧
    vdFileOps.filterMap FileOp.rmdirArg = ["dir"] ∧
    vdFileOps.findIdx (fun op => op == FileOp.mkdir "dir")
      < vdFileOps.findIdx (fun op => op == FileOp.rmdir "dir") ∧
    listingOf (runOps fs₀ (vdFileOps.take 6)) = listingOf (runOps fs₀ (vdFileOps.take 2)) ∧
    fsMember (runOps fs₀ (vdFileOps.take 16)) "test.txt" = false ∧
    "test_rename.txt" ∈ listingOf (runOps fs₀ (vdFileOps.take 16)) := by
  have key2 : runOps fs₀ (vdFileOps.take 2) = fs₀ := rfl
  have key6 : runOps fs₀ (vdFileOps.take 6) = fs₀ := by
    show (fs₀ ++ [("dir", Entry.dir)]).filter (fun e => !(e.1 == "dir")) = fs₀
    rw [List.filter_append, filter_absent fs₀ "dir" h₁]
    simp
  have hsplit : vdFileOps.take 16 = vdFileOps.take 6 ++
      [.getcwd, .listdir, .openFile "test.txt" "w",
       .fileWrite "Hello! I write this from the kernel worker",
       .openFile "test.txt" "r", .fileRead, .openFile "pil_color.png" "rb",
       .fileRead, .pathExists "test.txt",
       .rename "test.txt" "test_rename.txt"] := by decide
  have key16 : runOps fs₀ (vdFileOps.take 16) = fs₀ ++ [("test_rename.txt", Entry.file)] := by
    rw [hsplit, runOps_append, key6]
    show (if fsMember fs₀ "test.txt" then fs₀ else fs₀ ++ [("test.txt", Entry.file)]).map
        (fun e => if e.1 == "test.txt" then ("test_rename.txt", e.2) else e)
      = fs₀ ++ [("test_rename.txt", Entry.file)]
    rw [if_neg (by simp [h₂])]
    rw [List.map_append, rename_absent fs₀ "test.txt" "test_rename.txt" h₂]
    rfl
  refine ⟨by decide, by decide, by decide, ?_, ?_, ?_⟩
  · rw [key6, key2]
  · rw [key16]
    simp only [fsMember, List.any_append] at h₂ ⊢
    simp [h₂]
  · rw [key16]
    simp [listingOf]

/-- C9 witness: the theorem applied to a model filesystem that already
holds one unrelated file, with both hypotheses discharged concretely. -/
theorem C9_witness :
    (fsMember [("existing.txt", Entry.file)] "dir" = false ∧
     fsMember [("existing.txt", Entry.file)] "test.txt" = false) ∧
    (vdFileOps.filterMap FileOp.mkdirArg = ["dir"] ∧
     vdFileOps.filterMap FileOp.rmdirArg = ["dir"] ∧
     vdFileOps.findIdx (fun op => op == FileOp.mkdir "dir")
       < vdFileOps.findIdx (fun op => op == FileOp.rmdir "dir") ∧
     listingOf (runOps [("existing.txt", Entry.file)] (vdFileOps.take 6))
       = listingOf (runOps [("existing.txt", Entry.file)] (vdFileOps.take 2)) ∧
     fsMember (runOps [("existing.txt", Entry.file)] (vdFileOps.take 16)) "test.txt" = false ∧
     "test_rename.txt" ∈ listingOf (runOps [("existing.txt", Entry.file)] (vdFileOps.take 16))) :=
  ⟨⟨by decide, by decide⟩,
    C9_mkdir_rmdir_rename [("existing.txt", Entry.file)] (by decide) (by decide)⟩

/-- C10: every code cell of the virtual-drive notebook carries metadata
`trusted: true`, and no code cell of the PIL demo notebook carries a
trusted flag at all. -/
theorem C10_trusted_metadata :
    virtualDrive.codeCells.all (fun c => c.metaOf.trusted == some true) = true ∧
    pilDemo.codeCells.all (fun c => c.metaOf.trusted == none) = true := by decide

end JupyterLite
